import Mathlib

/-!
Verification of the SPT parking calculator (src/src/analyzers/parking_calculator.py).

The Python module is pure arithmetic over a static ratio table. It is embedded
shallowly: Python floats become exact rationals (ℚ), Python ints become ℤ,
`math.ceil` becomes `Int.ceil`, dicts of fixed shape become structures, and the
ratio table becomes an association list preserving the source order. The
f-string rendering of numbers inside human-readable notes is modelled by
Lean's `toString` on ℚ/ℤ (`fmtQ`, `fmt2`); no theorem below depends on the
digit-level agreement of those renderings with CPython's float formatting.
-/

/-- Result record of a single-use calculation (the `ParkingRequirement`
dataclass). -/
structure ParkingRequirement where
  use_type : String
  gross_sf : ℚ
  units : ℤ
  base_ratio : String
  required_spaces : ℤ
  ada_spaces : ℤ
  total_spaces : ℤ
  notes : List String
deriving DecidableEq

/-- One entry of the ratio table: the value dict
`{"ratio": ..., "unit": ..., "notes": ...}`. -/
structure RatioInfo where
  ratio : ℚ
  unit : String
  notes : String
deriving DecidableEq

/-- The `office_general` table entry, named separately because the unknown
use-type fallback in `calculate_parking` substitutes exactly this entry. -/
def office_general_info : RatioInfo :=
  { ratio := 3.0, unit := "1,000 SF", notes := "3 spaces per 1,000 SF" }

/-- The `PARKING_RATIOS` dict, as an association list in source order. -/
def PARKING_RATIOS : List (String × RatioInfo) := [
  ("single_family", { ratio := 2.0, unit := "dwelling unit", notes := "2 spaces per DU" }),
  ("multi_family", { ratio := 1.5, unit := "dwelling unit", notes := "1.5 spaces per DU + guest parking" }),
  ("townhouse", { ratio := 2.0, unit := "dwelling unit", notes := "2 spaces per DU" }),
  ("senior_housing", { ratio := 0.5, unit := "dwelling unit", notes := "0.5 spaces per DU" }),
  ("retail", { ratio := 4.0, unit := "1,000 SF GFA", notes := "4 spaces per 1,000 SF" }),
  ("shopping_center", { ratio := 4.5, unit := "1,000 SF GLA", notes := "4.5 spaces per 1,000 SF GLA" }),
  ("restaurant", { ratio := 10.0, unit := "1,000 SF", notes := "10 spaces per 1,000 SF or 1 per 3 seats" }),
  ("fast_food", { ratio := 12.0, unit := "1,000 SF", notes := "12 spaces per 1,000 SF" }),
  ("bank", { ratio := 4.0, unit := "1,000 SF", notes := "4 spaces per 1,000 SF + queue for drive-thru" }),
  ("office_general", office_general_info),
  ("office_medical", { ratio := 5.0, unit := "1,000 SF", notes := "5 spaces per 1,000 SF" }),
  ("office_dental", { ratio := 4.5, unit := "1,000 SF", notes := "4.5 spaces per 1,000 SF" }),
  ("warehouse", { ratio := 1.0, unit := "1,000 SF", notes := "1 space per 1,000 SF" }),
  ("manufacturing", { ratio := 1.5, unit := "1,000 SF", notes := "1.5 spaces per 1,000 SF" }),
  ("flex_space", { ratio := 2.0, unit := "1,000 SF", notes := "2 spaces per 1,000 SF" }),
  ("church", { ratio := 0.33, unit := "seat", notes := "1 space per 3 seats" }),
  ("school_elementary", { ratio := 2.0, unit := "classroom", notes := "2 spaces per classroom" }),
  ("school_high", { ratio := 8.0, unit := "classroom", notes := "8 spaces per classroom" }),
  ("daycare", { ratio := 1.0, unit := "employee + 1 per 10 children", notes := "Drop-off lane required" }),
  ("gym_fitness", { ratio := 5.0, unit := "1,000 SF", notes := "5 spaces per 1,000 SF" }),
  ("hotel", { ratio := 1.0, unit := "room", notes := "1 space per room + employee parking" })]

/-- Dict lookup `PARKING_RATIOS[use_type]` / membership `use_type in PARKING_RATIOS`. -/
def lookupRatio (use_type : String) : Option RatioInfo :=
  List.lookup use_type PARKING_RATIOS

/-- The `ADA_REQUIREMENTS` list of (threshold, required) pairs, in source order.
The source's own comment labels the last row "501-1000: 2% of total (using 2 as
base increment)" while storing the constant 2. -/
def ADA_REQUIREMENTS : List (ℤ × ℤ) := [
  (25, 1), (50, 2), (75, 3), (100, 4), (150, 5),
  (200, 6), (300, 7), (400, 8), (500, 9), (1000, 2)]

/-- The scan loop of `calculate_ada_spaces`: return the first `required` whose
`threshold` satisfies `total_spaces <= threshold`; falling off the end of the
list reaches the over-1000 formula `20 + ceil((total_spaces - 1000) / 100)`. -/
def ada_lookup : List (ℤ × ℤ) → ℤ → ℤ
  | [], total_spaces => 20 + ⌈(((total_spaces : ℚ)) - 1000) / 100⌉
  | (threshold, required) :: rest, total_spaces =>
    if total_spaces ≤ threshold then required else ada_lookup rest total_spaces

/-- `calculate_ada_spaces(total_spaces)`. -/
def calculate_ada_spaces (total_spaces : ℤ) : ℤ :=
  if total_spaces ≤ 0 then 0 else ada_lookup ADA_REQUIREMENTS total_spaces

/-- `calculate_van_accessible(ada_spaces) = max(1, ceil(ada_spaces / 6))`. -/
def calculate_van_accessible (ada_spaces : ℤ) : ℤ :=
  max 1 ⌈((ada_spaces : ℚ)) / 6⌉

/-- Whether the character list `p` is an initial segment of `s`. -/
def listStarts : List Char → List Char → Bool
  | _, [] => true
  | [], _ :: _ => false
  | c :: s, d :: p => c == d && listStarts s p

/-- Whether `p` occurs as a contiguous segment of `s`. -/
def listHas : List Char → List Char → Bool
  | [], p => listStarts [] p
  | c :: s, p => listStarts (c :: s) p || listHas s p

/-- Python's substring test `pat in s`. -/
def strContains (s pat : String) : Bool :=
  listHas s.toList pat.toList

/-- Which branch of the `if/elif` dispatch on `unit_type` a unit string takes. -/
inductive UnitBasis where
  | dwelling_unit
  | thousand_sf
  | seat
  | room
  | classroom
  | fallback
deriving DecidableEq

/-- The source's substring dispatch, in its exact order: "dwelling unit",
then "1,000 SF", then "seat", then "room", then "classroom", else the
unrecognized-basis fallback. -/
def unitBasis (unit_type : String) : UnitBasis :=
  if strContains unit_type "dwelling unit" then UnitBasis.dwelling_unit
  else if strContains unit_type "1,000 SF" then UnitBasis.thousand_sf
  else if strContains unit_type "seat" then UnitBasis.seat
  else if strContains unit_type "room" then UnitBasis.room
  else if strContains unit_type "classroom" then UnitBasis.classroom
  else UnitBasis.fallback

/-- Rendering of a ratio in a note (models the f-string `{ratio}`). -/
def fmtQ (q : ℚ) : String := toString q

/-- Rendering of `{sf_units:.2f}`: two decimals, half away from zero on the
magnitude. -/
def fmt2 (q : ℚ) : String :=
  let c : ℤ := ⌊q * 100 + 1 / 2⌋
  let a : ℕ := c.natAbs
  let sign := if c < 0 then "-" else ""
  let frac := a % 100
  sign ++ toString (a / 100) ++ "." ++ (if frac < 10 then "0" else "") ++ toString frac

/-- The base-requirement computation of `calculate_parking`: the dispatched
ceiling product together with the "Calculation: ..." note of the branch taken. -/
def dispatch (unit_type : String) (ratio gross_sf : ℚ) (units seats : ℤ) : ℤ × String :=
  match unitBasis unit_type with
  | UnitBasis.dwelling_unit =>
    let required := ⌈ratio * ((units : ℚ))⌉
    (required, "Calculation: " ++ fmtQ ratio ++ " × " ++ toString units ++ " units = "
      ++ toString required ++ " spaces")
  | UnitBasis.thousand_sf =>
    let sf_units := gross_sf / 1000
    let required := ⌈ratio * sf_units⌉
    (required, "Calculation: " ++ fmtQ ratio ++ " × " ++ fmt2 sf_units ++ " (1,000 SF) = "
      ++ toString required ++ " spaces")
  | UnitBasis.seat =>
    let required := ⌈ratio * ((seats : ℚ))⌉
    (required, "Calculation: " ++ fmtQ ratio ++ " × " ++ toString seats ++ " seats = "
      ++ toString required ++ " spaces")
  | UnitBasis.room =>
    let required := ⌈ratio * ((units : ℚ))⌉
    (required, "Calculation: " ++ fmtQ ratio ++ " × " ++ toString units ++ " rooms = "
      ++ toString required ++ " spaces")
  | UnitBasis.classroom =>
    let required := ⌈ratio * ((units : ℚ))⌉
    (required, "Calculation: " ++ fmtQ ratio ++ " × " ++ toString units ++ " classrooms = "
      ++ toString required ++ " spaces")
  | UnitBasis.fallback =>
    (⌈ratio * (gross_sf / 1000)⌉, "Default calculation based on SF")

/-- The warning note appended when `use_type` is not a key of the table. -/
def unknownNote (use_type : String) : String :=
  "⚠️ Unknown use type '" ++ use_type ++ "', using general office ratio"

/-- The body of `calculate_parking` after the use type has been resolved:
`ut` is the (possibly substituted) use type, `info` its table entry and
`notes0` the notes accumulated so far (the warning, when one was emitted). -/
def calcCore (ut : String) (info : RatioInfo) (notes0 : List String)
    (gross_sf : ℚ) (units seats : ℤ) (custom_ratio : Option ℚ) : ParkingRequirement :=
  match info with
  | { ratio := table_ratio, unit := unit_type, notes := rule_note } =>
    let ratio :=
      match custom_ratio with
      | some c => if c = 0 then table_ratio else c
      | none => table_ratio
    let rn := dispatch unit_type ratio gross_sf units seats
    let required := rn.1
    let ada_spaces := calculate_ada_spaces required
    let van_accessible := calculate_van_accessible ada_spaces
    { use_type := ut,
      gross_sf := gross_sf,
      units := units,
      base_ratio := fmtQ ratio ++ " per " ++ unit_type,
      required_spaces := required,
      ada_spaces := ada_spaces,
      total_spaces := required,
      notes := notes0 ++ [rule_note, rn.2,
        "ADA: " ++ toString ada_spaces ++ " accessible spaces ("
          ++ toString van_accessible ++ " van accessible)"] }

/-- `calculate_parking(use_type, gross_sf, units, seats, employees, custom_ratio)`.
`employees` is accepted and never read, exactly as in the source. -/
def calculate_parking (use_type : String) (gross_sf : ℚ) (units seats employees : ℤ)
    (custom_ratio : Option ℚ) : ParkingRequirement :=
  match lookupRatio use_type with
  | some info => calcCore use_type info [] gross_sf units seats custom_ratio
  | none => calcCore "office_general" office_general_info [unknownNote use_type]
      gross_sf units seats custom_ratio

/-- One entry of the `uses` list handed to `calculate_mixed_use`: a dict read
through `.get` with defaults, so a missing key is the same as the default value. -/
structure MixedUseInput where
  use_type : String
  gross_sf : ℚ
  units : ℤ
  seats : ℤ
deriving DecidableEq

/-- The result dict of `calculate_mixed_use`. -/
structure MixedUseResult where
  individual_calculations : List ParkingRequirement
  total_without_sharing : ℤ
  shared_parking_potential : ℤ
  potential_reduction : ℤ
  ada_total : ℤ
  notes : List String
deriving DecidableEq

/-- `calculate_mixed_use(uses)`: one `calculate_parking` call per entry in
order, the sum of the base requirements, and the flat 15% shared-parking
reduction `ceil(total * 0.85)`. -/
def calculate_mixed_use (uses : List MixedUseInput) : MixedUseResult :=
  let results := uses.map (fun u =>
    calculate_parking u.use_type u.gross_sf u.units u.seats 0 none)
  let total_required : ℤ := (results.map (fun r => r.required_spaces)).sum
  let shared_potential : ℤ := ⌈((total_required : ℚ)) * 0.85⌉
  { individual_calculations := results,
    total_without_sharing := total_required,
    shared_parking_potential := shared_potential,
    potential_reduction := total_required - shared_potential,
    ada_total := calculate_ada_spaces shared_potential,
    notes := ["Shared parking analysis based on ULI Shared Parking methodology",
      "Actual reduction requires detailed time-of-day analysis",
      "Local jurisdiction approval required for shared parking credits"] }

/-- Spec-side comparison function for the ADA step: "scan thresholds in
ascending order; return the first `required` whose `threshold >= total_spaces`",
as the spec words it. -/
def ada_first_ge : List (ℤ × ℤ) → ℤ → Option ℤ
  | [], _ => none
  | (threshold, required) :: rest, total_spaces =>
    if threshold ≥ total_spaces then some required else ada_first_ge rest total_spaces

/-- The effective ratio `calculate_parking` multiplies by: the caller's
`custom_ratio` when supplied and non-zero (Python truthiness), else the table
ratio of the (possibly substituted) use type. -/
def effectiveRatio (use_type : String) (custom_ratio : Option ℚ) : ℚ :=
  let table :=
    match lookupRatio use_type with
    | some info => info.ratio
    | none => office_general_info.ratio
  match custom_ratio with
  | some c => if c = 0 then table else c
  | none => table

/-- The unit string `calculate_parking` dispatches on for a given use type. -/
def unitOf (use_type : String) : String :=
  match lookupRatio use_type with
  | some info => info.unit
  | none => office_general_info.unit

/-- Prepend one note to a result's note list, all other fields unchanged. -/
def prependNote (s : String) (r : ParkingRequirement) : ParkingRequirement :=
  { r with notes := s :: r.notes }

/-- The mixed-use example input of the spec: retail 10000 SF, general office
20000 SF, restaurant 3000 SF. -/
def exampleUses : List MixedUseInput :=
  [⟨"retail", 10000, 0, 0⟩, ⟨"office_general", 20000, 0, 0⟩, ⟨"restaurant", 3000, 0, 0⟩]

set_option maxHeartbeats 1000000

/-! ### Helper lemmas -/

lemma lookup_office_general : lookupRatio "office_general" = some office_general_info := by
  with_unfolding_all rfl

lemma calcCore_total_eq (ut : String) (info : RatioInfo) (notes0 : List String)
    (g : ℚ) (un se : ℤ) (cr : Option ℚ) :
    (calcCore ut info notes0 g un se cr).total_spaces =
      (calcCore ut info notes0 g un se cr).required_spaces := by
  obtain ⟨tr, tu, tn⟩ := info
  rfl

lemma calcCore_ada_eq (ut : String) (info : RatioInfo) (notes0 : List String)
    (g : ℚ) (un se : ℤ) (cr : Option ℚ) :
    (calcCore ut info notes0 g un se cr).ada_spaces =
      calculate_ada_spaces ((calcCore ut info notes0 g un se cr).required_spaces) := by
  obtain ⟨tr, tu, tn⟩ := info
  rfl

lemma prependNote_calcCore (s : String) (ut : String) (info : RatioInfo)
    (notes0 : List String) (g : ℚ) (un se : ℤ) (cr : Option ℚ) :
    prependNote s (calcCore ut info notes0 g un se cr) =
      calcCore ut info (s :: notes0) g un se cr := by
  obtain ⟨tr, tu, tn⟩ := info
  rfl

lemma calculate_parking_unknown (u : String) (g : ℚ) (un se em : ℤ) (cr : Option ℚ)
    (h : lookupRatio u = none) :
    calculate_parking u g un se em cr =
      prependNote (unknownNote u) (calculate_parking "office_general" g un se em cr) := by
  unfold calculate_parking
  rw [h, lookup_office_general, prependNote_calcCore]

lemma required_spaces_eq (u : String) (g : ℚ) (un se em : ℤ) (cr : Option ℚ) :
    (calculate_parking u g un se em cr).required_spaces =
      (dispatch (unitOf u) (effectiveRatio u cr) g un se).1 := by
  unfold calculate_parking unitOf effectiveRatio
  cases h : lookupRatio u with
  | none => rfl
  | some info =>
    obtain ⟨tr, tu, tn⟩ := info
    rfl

lemma ada_spaces_eq (u : String) (g : ℚ) (un se em : ℤ) (cr : Option ℚ) :
    (calculate_parking u g un se em cr).ada_spaces =
      calculate_ada_spaces ((calculate_parking u g un se em cr).required_spaces) := by
  unfold calculate_parking
  cases h : lookupRatio u with
  | none => exact calcCore_ada_eq _ _ _ _ _ _ _
  | some info => exact calcCore_ada_eq _ _ _ _ _ _ _

lemma one_le_ceil_over (n : ℤ) (h : 1000 < n) : 1 ≤ ⌈(((n : ℚ)) - 1000) / 100⌉ := by
  have h1 : (1000 : ℚ) < ((n : ℚ)) := by exact_mod_cast h
  have h2 : (0 : ℚ) < (((n : ℚ)) - 1000) / 100 := div_pos (by linarith) (by norm_num)
  have := Int.ceil_pos.mpr h2
  omega

lemma ceil_over_mono (m n : ℤ) (h : m ≤ n) :
    ⌈(((m : ℚ)) - 1000) / 100⌉ ≤ ⌈(((n : ℚ)) - 1000) / 100⌉ := by
  apply Int.ceil_mono
  have h1 : ((m : ℚ)) ≤ ((n : ℚ)) := by exact_mod_cast h
  linarith

lemma dispatch_fst_mono_gsf (ut : String) (r : ℚ) (hr : 0 ≤ r) (g g' : ℚ) (hg : g ≤ g')
    (un se : ℤ) : (dispatch ut r g un se).1 ≤ (dispatch ut r g' un se).1 := by
  unfold dispatch
  cases unitBasis ut <;> dsimp only <;>
    first
      | exact le_rfl
      | exact Int.ceil_mono (mul_le_mul_of_nonneg_left
          ((div_le_div_iff_of_pos_right (by norm_num)).mpr hg) hr)

lemma dispatch_fst_mono_units (ut : String) (r : ℚ) (hr : 0 ≤ r) (g : ℚ) (un un' : ℤ)
    (hun : un ≤ un') (se : ℤ) : (dispatch ut r g un se).1 ≤ (dispatch ut r g un' se).1 := by
  unfold dispatch
  cases unitBasis ut <;> dsimp only <;>
    first
      | exact le_rfl
      | exact Int.ceil_mono (mul_le_mul_of_nonneg_left (by exact_mod_cast hun) hr)

lemma dispatch_fst_mono_seats (ut : String) (r : ℚ) (hr : 0 ≤ r) (g : ℚ) (un se se' : ℤ)
    (hse : se ≤ se') : (dispatch ut r g un se).1 ≤ (dispatch ut r g un se').1 := by
  unfold dispatch
  cases unitBasis ut <;> dsimp only <;>
    first
      | exact le_rfl
      | exact Int.ceil_mono (mul_le_mul_of_nonneg_left (by exact_mod_cast hse) hr)


/-- Closed form of the ADA step function as nested conditionals, read off the
table row by row. -/
lemma ada_spaces_piecewise (n : ℤ) :
    calculate_ada_spaces n =
      if n ≤ 0 then 0
      else if n ≤ 25 then 1
      else if n ≤ 50 then 2
      else if n ≤ 75 then 3
      else if n ≤ 100 then 4
      else if n ≤ 150 then 5
      else if n ≤ 200 then 6
      else if n ≤ 300 then 7
      else if n ≤ 400 then 8
      else if n ≤ 500 then 9
      else if n ≤ 1000 then 2
      else 20 + ⌈(((n : ℚ)) - 1000) / 100⌉ := by
  unfold calculate_ada_spaces ADA_REQUIREMENTS
  rw [ada_lookup.eq_2, ada_lookup.eq_2, ada_lookup.eq_2, ada_lookup.eq_2, ada_lookup.eq_2,
    ada_lookup.eq_2, ada_lookup.eq_2, ada_lookup.eq_2, ada_lookup.eq_2, ada_lookup.eq_2,
    ada_lookup.eq_1]

/-- Closed form of the spec-worded first-threshold-at-least-n scan. -/
lemma ada_first_ge_piecewise (n : ℤ) :
    ada_first_ge ADA_REQUIREMENTS n =
      if 25 ≥ n then some 1
      else if 50 ≥ n then some 2
      else if 75 ≥ n then some 3
      else if 100 ≥ n then some 4
      else if 150 ≥ n then some 5
      else if 200 ≥ n then some 6
      else if 300 ≥ n then some 7
      else if 400 ≥ n then some 8
      else if 500 ≥ n then some 9
      else if 1000 ≥ n then some 2
      else none := by
  unfold ADA_REQUIREMENTS
  rw [ada_first_ge.eq_2, ada_first_ge.eq_2, ada_first_ge.eq_2, ada_first_ge.eq_2,
    ada_first_ge.eq_2, ada_first_ge.eq_2, ada_first_ge.eq_2, ada_first_ge.eq_2,
    ada_first_ge.eq_2, ada_first_ge.eq_2, ada_first_ge.eq_1]

lemma ada_eq_of_nonpos (n : ℤ) (h : n ≤ 0) : calculate_ada_spaces n = 0 := by
  rw [ada_spaces_piecewise, if_pos h]

lemma ada_1_25 (n : ℤ) (h1 : 1 ≤ n) (h2 : n ≤ 25) : calculate_ada_spaces n = 1 := by
  rw [ada_spaces_piecewise]
  generalize ⌈(((n : ℚ)) - 1000) / 100⌉ = c
  split_ifs <;> omega

lemma ada_26_50 (n : ℤ) (h1 : 26 ≤ n) (h2 : n ≤ 50) : calculate_ada_spaces n = 2 := by
  rw [ada_spaces_piecewise]
  generalize ⌈(((n : ℚ)) - 1000) / 100⌉ = c
  split_ifs <;> omega

lemma ada_51_75 (n : ℤ) (h1 : 51 ≤ n) (h2 : n ≤ 75) : calculate_ada_spaces n = 3 := by
  rw [ada_spaces_piecewise]
  generalize ⌈(((n : ℚ)) - 1000) / 100⌉ = c
  split_ifs <;> omega

lemma ada_501_1000 (n : ℤ) (h1 : 501 ≤ n) (h2 : n ≤ 1000) :
    calculate_ada_spaces n = 2 := by
  rw [ada_spaces_piecewise]
  generalize ⌈(((n : ℚ)) - 1000) / 100⌉ = c
  split_ifs <;> omega

lemma ada_over_1000 (n : ℤ) (h : 1000 < n) :
    calculate_ada_spaces n = 20 + ⌈(((n : ℚ)) - 1000) / 100⌉ := by
  rw [ada_spaces_piecewise]
  generalize ⌈(((n : ℚ)) - 1000) / 100⌉ = c
  split_ifs <;> omega

lemma one_le_ada (n : ℤ) (h : 1 ≤ n) : 1 ≤ calculate_ada_spaces n := by
  rcases le_or_lt n 1000 with hn | hn
  · rw [ada_spaces_piecewise]
    generalize ⌈(((n : ℚ)) - 1000) / 100⌉ = c
    split_ifs <;> omega
  · rw [ada_over_1000 n hn]
    have hc := one_le_ceil_over n hn
    omega

/-! ### Claim theorems -/

/-- C1 counterexample: the ADA step function is not monotone at the 500 to 501
boundary, where the table value drops from 9 to 2. -/
theorem ada_step_monotone_counterexample :
    (0 : ℤ) ≤ 500 ∧ (500 : ℤ) ≤ 501 ∧
      ¬(calculate_ada_spaces 500 ≤ calculate_ada_spaces 501) := by
  with_unfolding_all decide

set_option maxHeartbeats 8000000 in
/-- C1 (amended): the ADA step function is monotone non-decreasing on [0, 500]
and on [501, infinity) separately; the only failures of monotonicity cross the
500 to 501 boundary. -/
theorem ada_step_monotone_on_pieces :
    ∀ m n : ℤ, 0 ≤ m → m ≤ n → (n ≤ 500 ∨ 501 ≤ m) →
      calculate_ada_spaces m ≤ calculate_ada_spaces n := by
  intro m n h0 hmn hs
  rcases hs with hs | hs
  · rw [ada_spaces_piecewise, ada_spaces_piecewise]
    generalize ⌈(((m : ℚ)) - 1000) / 100⌉ = cm
    generalize ⌈(((n : ℚ)) - 1000) / 100⌉ = cn
    split_ifs <;> omega
  · rcases le_or_lt n 1000 with hn | hn
    · rw [ada_501_1000 m hs (le_trans hmn hn), ada_501_1000 n (by omega) hn]
    · rcases le_or_lt m 1000 with hm | hm
      · rw [ada_501_1000 m hs hm, ada_over_1000 n hn]
        have hx := one_le_ceil_over n hn
        omega
      · rw [ada_over_1000 m hm, ada_over_1000 n hn]
        have hx := ceil_over_mono m n hmn
        omega

/-- C1 witness. -/
theorem ada_step_monotone_on_pieces_witness :
    calculate_ada_spaces 100 ≤ calculate_ada_spaces 200 :=
  ada_step_monotone_on_pieces 100 200 (by norm_num) (by norm_num) (Or.inl (by norm_num))

/-- C2: calculate_ada_spaces returns 0 for n ≤ 0; for 1 ≤ n ≤ 1000 it returns the
first table value whose threshold is at least n (in particular 1 on [1,25], 2 on
[26,50], 3 on [51,75] and 2 on [501,1000]); for n > 1000 it returns
20 + ceil((n - 1000)/100); and it maps 26 to 2, 75 to 3, 1001 to 21, 1100 to 21. -/
theorem ada_step_piecewise_values :
    (∀ n : ℤ,
      (n ≤ 0 → calculate_ada_spaces n = 0) ∧
      (1 ≤ n → n ≤ 1000 →
        ada_first_ge ADA_REQUIREMENTS n = some (calculate_ada_spaces n)) ∧
      (1 ≤ n → n ≤ 25 → calculate_ada_spaces n = 1) ∧
      (26 ≤ n → n ≤ 50 → calculate_ada_spaces n = 2) ∧
      (51 ≤ n → n ≤ 75 → calculate_ada_spaces n = 3) ∧
      (501 ≤ n → n ≤ 1000 → calculate_ada_spaces n = 2) ∧
      (1000 < n → calculate_ada_spaces n = 20 + ⌈(((n : ℚ)) - 1000) / 100⌉)) ∧
    calculate_ada_spaces 26 = 2 ∧ calculate_ada_spaces 75 = 3 ∧
    calculate_ada_spaces 1001 = 21 ∧ calculate_ada_spaces 1100 = 21 := by
  refine ⟨fun n => ⟨fun h => ada_eq_of_nonpos n h, ?_, fun h1 h2 => ada_1_25 n h1 h2,
    fun h1 h2 => ada_26_50 n h1 h2, fun h1 h2 => ada_51_75 n h1 h2,
    fun h1 h2 => ada_501_1000 n h1 h2, fun h => ada_over_1000 n h⟩,
    ?_, ?_, ?_, ?_⟩
  · intro h1 h2
    rw [ada_spaces_piecewise, ada_first_ge_piecewise]
    simp only [ge_iff_le]
    generalize ⌈(((n : ℚ)) - 1000) / 100⌉ = c
    split_ifs <;> first | rfl | omega
  · with_unfolding_all rfl
  · with_unfolding_all rfl
  · with_unfolding_all rfl
  · with_unfolding_all rfl

/-- C3: calculate_mixed_use makes one calculate_parking call per entry in input
order, sums the per-entry required spaces, applies the flat 15% reduction
shared = ceil(total * 0.85), reports reduction = total - shared and
ada_total = ada_step(shared); the empty input gives zero totals and an empty
sequence; the retail/office/restaurant example gives 40, 60, 30, total 130,
shared 111, reduction 19, ada_total 5. -/
theorem mixed_use_totals :
    (∀ uses : List MixedUseInput,
      (calculate_mixed_use uses).individual_calculations =
        uses.map (fun u => calculate_parking u.use_type u.gross_sf u.units u.seats 0 none) ∧
      (calculate_mixed_use uses).total_without_sharing =
        ((calculate_mixed_use uses).individual_calculations.map
          (fun r => r.required_spaces)).sum ∧
      (calculate_mixed_use uses).shared_parking_potential =
        ⌈(((calculate_mixed_use uses).total_without_sharing : ℚ)) * 0.85⌉ ∧
      (calculate_mixed_use uses).potential_reduction =
        (calculate_mixed_use uses).total_without_sharing -
          (calculate_mixed_use uses).shared_parking_potential ∧
      (calculate_mixed_use uses).ada_total =
        calculate_ada_spaces ((calculate_mixed_use uses).shared_parking_potential)) ∧
    (calculate_mixed_use []).individual_calculations = [] ∧
    (calculate_mixed_use []).total_without_sharing = 0 ∧
    (calculate_mixed_use []).shared_parking_potential = 0 ∧
    (calculate_mixed_use []).ada_total = 0 ∧
    ((calculate_mixed_use exampleUses).individual_calculations.map
      (fun r => r.required_spaces)) = [40, 60, 30] ∧
    (calculate_mixed_use exampleUses).total_without_sharing = 130 ∧
    (calculate_mixed_use exampleUses).shared_parking_potential = 111 ∧
    (calculate_mixed_use exampleUses).potential_reduction = 19 ∧
    (calculate_mixed_use exampleUses).ada_total = 5 := by
  refine ⟨fun uses => ⟨rfl, rfl, rfl, rfl, rfl⟩, ?_, ?_, ?_, ?_, ?_, ?_, ?_, ?_, ?_⟩
  · with_unfolding_all rfl
  · with_unfolding_all rfl
  · with_unfolding_all rfl
  · with_unfolding_all rfl
  · with_unfolding_all rfl
  · with_unfolding_all rfl
  · with_unfolding_all rfl
  · with_unfolding_all rfl
  · with_unfolding_all rfl

/-- C4: every result of calculate_parking satisfies
total_spaces = required_spaces (ADA spaces are a subset, never added on top). -/
theorem total_spaces_eq_required_spaces :
    ∀ (u : String) (g : ℚ) (un se em : ℤ) (cr : Option ℚ),
      (calculate_parking u g un se em cr).total_spaces =
        (calculate_parking u g un se em cr).required_spaces := by
  intro u g un se em cr
  unfold calculate_parking
  cases h : lookupRatio u with
  | none => exact calcCore_total_eq _ _ _ _ _ _ _
  | some info => exact calcCore_total_eq _ _ _ _ _ _ _

/-- C5: for every result of calculate_parking, ada_spaces is at least 1 whenever
required_spaces is at least 1 (in particular on [1, 1000], and also beyond 1000),
and ada_spaces is 0 when required_spaces is 0. -/
theorem ada_spaces_invariant :
    ∀ (u : String) (g : ℚ) (un se em : ℤ) (cr : Option ℚ),
      (1 ≤ (calculate_parking u g un se em cr).required_spaces →
        1 ≤ (calculate_parking u g un se em cr).ada_spaces) ∧
      ((calculate_parking u g un se em cr).required_spaces = 0 →
        (calculate_parking u g un se em cr).ada_spaces = 0) := by
  intro u g un se em cr
  simp only [ada_spaces_eq]
  constructor
  · intro h
    exact one_le_ada _ h
  · intro h
    rw [h]
    with_unfolding_all rfl

/-- C6: an unknown use type never fails: the result is exactly the
office_general result with the warning note prepended, so the computation
proceeds normally with the substituted entry. -/
theorem unknown_use_type_recoverable :
    ∀ (u : String) (g : ℚ) (un se em : ℤ) (cr : Option ℚ), lookupRatio u = none →
      calculate_parking u g un se em cr =
        prependNote (unknownNote u) (calculate_parking "office_general" g un se em cr) ∧
      (calculate_parking u g un se em cr).required_spaces =
        (calculate_parking "office_general" g un se em cr).required_spaces := by
  intro u g un se em cr h
  have he := calculate_parking_unknown u g un se em cr h
  refine ⟨he, ?_⟩
  rw [he]
  rfl

/-- C6 witness: the unknown use type "nonexistent_use" with 5000 SF yields
3.0 x 5 = 15 spaces (office_general ratio) and the substitution warning as the
first note. -/
theorem unknown_use_type_recoverable_witness :
    (calculate_parking "nonexistent_use" 5000 0 0 0 none).required_spaces = 15 ∧
    (calculate_parking "nonexistent_use" 5000 0 0 0 none).notes.head? =
      some (unknownNote "nonexistent_use") := by
  have h := unknown_use_type_recoverable "nonexistent_use" 5000 0 0 0 none
    (by with_unfolding_all rfl)
  constructor
  · rw [h.2]
    with_unfolding_all rfl
  · rw [h.1]
    rfl

/-- C7 counterexample: the daycare entry's unit string matches none of the five
enumerated bases, so calculate_parking takes the unrecognized-basis fallback for
it (10000 SF at ratio 1.0 gives ceil(1.0 x 10) = 10 and the default-calculation
note). -/
theorem daycare_fallback_counterexample :
    (lookupRatio "daycare").map (fun info => unitBasis info.unit) =
      some UnitBasis.fallback ∧
    (calculate_parking "daycare" 10000 0 0 0 none).required_spaces = 10 ∧
    (calculate_parking "daycare" 10000 0 0 0 none).notes =
      ["Drop-off lane required", "Default calculation based on SF",
        "ADA: 1 accessible spaces (1 van accessible)"] := by
  with_unfolding_all decide

/-- C7 (amended): every ratio table entry except daycare has a unit string
matched by one of the five enumerated bases, so calculate_parking dispatches it
to one of the five basis formulas and never to the fallback branch. -/
theorem unit_basis_enumerated_except_daycare :
    ∀ p : String × RatioInfo, p ∈ PARKING_RATIOS → p.1 ≠ "daycare" →
      unitBasis p.2.unit ≠ UnitBasis.fallback := by
  intro p hp hne
  have hall : ∀ q ∈ PARKING_RATIOS,
      q.1 = "daycare" ∨ unitBasis q.2.unit ≠ UnitBasis.fallback := by
    with_unfolding_all decide
  rcases hall p hp with h | h
  · exact absurd h hne
  · exact h

/-- C7 witness: the retail entry dispatches away from the fallback branch. -/
theorem unit_basis_enumerated_witness :
    unitBasis (Prod.mk "retail"
      ({ ratio := 4.0, unit := "1,000 SF GFA", notes := "4 spaces per 1,000 SF" } :
        RatioInfo)).2.unit ≠ UnitBasis.fallback :=
  unit_basis_enumerated_except_daycare _ (by with_unfolding_all decide)
    (by with_unfolding_all decide)

/-- C8 counterexample: with a negative custom ratio, increasing the units input
strictly decreases required_spaces, so the monotonicity claim fails for
arbitrary custom_ratio. -/
theorem negative_ratio_monotonicity_counterexample :
    (1 : ℤ) ≤ 2 ∧
    (calculate_parking "multi_family" 0 1 0 0 (some (-1))).required_spaces = -1 ∧
    (calculate_parking "multi_family" 0 2 0 0 (some (-1))).required_spaces = -2 ∧
    ¬((calculate_parking "multi_family" 0 1 0 0 (some (-1))).required_spaces ≤
        (calculate_parking "multi_family" 0 2 0 0 (some (-1))).required_spaces) := by
  with_unfolding_all decide

/-- C8 (amended): whenever the effective ratio is non-negative (always the case
for table ratios; a caller-supplied custom_ratio below zero is the only
exception), required_spaces is monotone in each of gross_sf, units and seats
separately. -/
theorem required_spaces_monotone_nonneg_ratio :
    ∀ (u : String) (cr : Option ℚ) (em : ℤ), 0 ≤ effectiveRatio u cr →
      (∀ (g g' : ℚ) (un se : ℤ), g ≤ g' →
        (calculate_parking u g un se em cr).required_spaces ≤
          (calculate_parking u g' un se em cr).required_spaces) ∧
      (∀ (g : ℚ) (un un' se : ℤ), un ≤ un' →
        (calculate_parking u g un se em cr).required_spaces ≤
          (calculate_parking u g un' se em cr).required_spaces) ∧
      (∀ (g : ℚ) (un se se' : ℤ), se ≤ se' →
        (calculate_parking u g un se em cr).required_spaces ≤
          (calculate_parking u g un se' em cr).required_spaces) := by
  intro u cr em hr
  refine ⟨fun g g' un se hg => ?_, fun g un un' se hun => ?_, fun g un se se' hse => ?_⟩
  all_goals simp only [required_spaces_eq]
  · exact dispatch_fst_mono_gsf _ _ hr _ _ hg _ _
  · exact dispatch_fst_mono_units _ _ hr _ _ _ hun _
  · exact dispatch_fst_mono_seats _ _ hr _ _ _ _ hse

/-- C8 witness: for retail (table ratio 4.0, no override), growing the floor
area from 1000 to 2000 SF does not decrease required_spaces. -/
theorem required_spaces_monotone_witness :
    (calculate_parking "retail" 1000 0 0 0 none).required_spaces ≤
      (calculate_parking "retail" 2000 0 0 0 none).required_spaces :=
  (required_spaces_monotone_nonneg_ratio "retail" none 0
    (by with_unfolding_all decide)).1 1000 2000 0 0 (by norm_num)

/-- C9: the employees argument is never read: two calls that differ only in it
return identical results in every field, notes included. -/
theorem employees_no_effect :
    ∀ (u : String) (g : ℚ) (un se e1 e2 : ℤ) (cr : Option ℚ),
      calculate_parking u g un se e1 cr = calculate_parking u g un se e2 cr := by
  intro u g un se e1 e2 cr
  rfl

/-- C10: for an unknown use type, the use_type field of the result is the
substituted "office_general", not the caller's string, and the original
identifier appears only in the prepended warning note (the remaining notes are
those of the office_general computation, independent of the original string). -/
theorem unknown_use_type_substitution :
    ∀ (u : String) (g : ℚ) (un se em : ℤ) (cr : Option ℚ), lookupRatio u = none →
      (calculate_parking u g un se em cr).use_type = "office_general" ∧
      (calculate_parking u g un se em cr).notes =
        unknownNote u :: (calculate_parking "office_general" g un se em cr).notes := by
  intro u g un se em cr h
  have he := calculate_parking_unknown u g un se em cr h
  constructor
  · rw [he]
    with_unfolding_all rfl
  · rw [he]
    rfl

/-- C10 witness. -/
theorem unknown_use_type_substitution_witness :
    (calculate_parking "nonexistent_use" 1000 2 3 4 none).use_type =
      "office_general" :=
  (unknown_use_type_substitution "nonexistent_use" 1000 2 3 4 none
    (by with_unfolding_all rfl)).1
